import Mathlib

/-!
Verification development for the `Rounded` output postprocessor
(`src/art/defences/postprocessor/rounded.py`) and the iteration-capped
Sinkhorn projection loop of the Wasserstein attack, shallowly embedded
in Lean 4.  Python machine floats are modelled by exact rationals, numpy
arrays by a shape/dtype/flat-data record, and Python attribute values by
an explicit `PyVal` type so that the `isinstance(..., int)` check of
`Rounded.set_params` is faithful.
-/

/-- Python value stored in the `decimals` attribute: `set_params` accepts an
arbitrary keyword value, so the attribute may hold an `int`, a `float`
or some other object before validation rejects it. -/
inductive PyVal where
  | pyInt (z : ℤ)
  | pyFloat (q : ℚ)
  | pyStr (s : String)
  deriving DecidableEq

/-- Numpy dtype of an array, as far as the embedding needs it. -/
inductive DType where
  | float32
  | float64
  | int32
  | int64
  deriving DecidableEq

/-- Whether a dtype belongs to the floating-point class. -/
def DType.isFloat : DType → Bool
  | .float32 => true
  | .float64 => true
  | _ => false

/-- Model of a `np.ndarray`: a shape, a dtype and the flattened element
data (machine reals modelled as exact rationals). -/
structure NDArray where
  shape : List ℕ
  dtype : DType
  data : List ℚ
  deriving DecidableEq

/-- Round-to-nearest with ties to even on rationals, the behaviour of
numpy `rint` used by `np.around` (numpy documents that values exactly
halfway between rounded values are rounded to the nearest even value). -/
def rint (q : ℚ) : ℤ :=
  if Int.fract q < 1/2 then ⌊q⌋
  else if 1/2 < Int.fract q then ⌊q⌋ + 1
  else if ⌊q⌋ % 2 = 0 then ⌊q⌋ else ⌊q⌋ + 1

/-- Scalar semantics of `np.around(q, decimals=d)`: scale by `10^d`,
round to nearest (ties to even), scale back. -/
def roundDec (d : ℤ) (q : ℚ) : ℚ := ((rint (q * (10:ℚ)^d) : ℤ) : ℚ) / (10:ℚ)^d

/-- Elementwise `np.around(x, decimals=d)` on an array value: the result
keeps the shape and dtype of the input and rounds every element. -/
def np_around (d : ℤ) (x : NDArray) : NDArray :=
  { shape := x.shape, dtype := x.dtype, data := x.data.map (roundDec d) }

/-- Observable state of a `Rounded` postprocessor object: the `_is_fitted`,
`_apply_fit` and `_apply_predict` attributes set in `__init__`, and the
`decimals` attribute (absent before the first `set_params`, hence an
`Option`). -/
structure RoundedState where
  is_fitted : Bool
  apply_fit : Bool
  apply_predict : Bool
  decimals : Option PyVal
  deriving DecidableEq

/-- Error message of the `ValueError` raised by `Rounded.set_params`. -/
def decimalsErrMsg : String := "Number of decimal places must be a positive integer."

/-- Check performed by `Rounded.set_params` on `self.decimals`:
`isinstance(self.decimals, (int, np.int)) and self.decimals > 0`
(the code raises exactly when this is false). -/
def isPositiveInt : Option PyVal → Bool
  | some (.pyInt z) => decide (0 < z)
  | _ => false

/-- Modelled from the spec: the base class `Postprocessor.set_params`
(`art/defences/postprocessor/postprocessor.py`, not included under
`src/`) saves each supplied keyword parameter named in `params` as an
attribute of the object; the spec records that in the reference
behaviour this assignment happens before the subclass validation runs
("as literally specified, validation happens after assignment in the
reference behavior"). For `Rounded`, `params = ["decimals"]`. -/
def postprocessor_set_params (s : RoundedState) (d : PyVal) : RoundedState :=
  { s with decimals := some d }

/-- `Rounded.set_params(decimals=d)`: first the base class saves the
parameter, then the check runs on the already-assigned attribute; the
result pairs the object state after the call with either `ok true`
(normal return) or the raised `ValueError` message. -/
def Rounded.set_params (s : RoundedState) (d : PyVal) : RoundedState × Except String Bool :=
  let s1 := postprocessor_set_params s d
  if isPositiveInt s1.decimals then (s1, Except.ok true)
  else (s1, Except.error decimalsErrMsg)

/-- `Rounded.__init__(decimals, apply_fit, apply_predict)`: sets
`_is_fitted = True` and the two flags, then calls
`set_params(decimals=decimals)`; a `ValueError` raised there propagates
out of the constructor. -/
def Rounded.init (decimals : PyVal) (apply_fit apply_predict : Bool) :
    Except String RoundedState :=
  let s0 : RoundedState :=
    { is_fitted := true, apply_fit := apply_fit, apply_predict := apply_predict,
      decimals := none }
  let r := Rounded.set_params s0 decimals
  match r.2 with
  | Except.ok _ => Except.ok r.1
  | Except.error e => Except.error e

/-- `Rounded.__call__(preds)`: returns `np.around(preds, decimals=self.decimals)`.
The call only makes sense when `self.decimals` holds an integer (numpy
rejects a non-integral `decimals`), hence the `Option` result. -/
def Rounded.call (s : RoundedState) (preds : NDArray) : Option NDArray :=
  match s.decimals with
  | some (.pyInt z) => some (np_around z preds)
  | _ => none

/-- `Rounded.fit(preds, **kwargs)`: the body is `pass`; the object state
is returned unchanged. -/
def Rounded.fit (s : RoundedState) (preds : NDArray) : RoundedState := s

/-- Record shorthand for the state of a `Rounded` object right after
`__init__` has run its attribute assignments. -/
def mkRounded (af ap : Bool) (d : Option PyVal) : RoundedState :=
  { is_fitted := true, apply_fit := af, apply_predict := ap, decimals := d }

/-- Boolean success test for a Python call modelled in `Except`. -/
def exceptOk {α : Type} : Except String α → Bool
  | Except.ok _ => true
  | Except.error _ => false

/-- Invariant claimed by the spec for a `Rounded` configuration:
`decimals` holds an integer strictly greater than zero. -/
def validDecimals (s : RoundedState) : Bool := isPositiveInt s.decimals

/-- Allocation-level model of numpy buffers, used to state non-mutation:
arrays live in a store of buffers addressed by index. -/
structure NpHeap where
  bufs : List NDArray

/-- Default array used by out-of-range buffer lookups in the heap model. -/
def emptyArr : NDArray := { shape := [], dtype := DType.float64, data := [] }

/-- Heap-level `np.around`: reads the buffer at `p`, allocates a fresh
buffer holding the rounded copy, and returns the new heap with the
address of the fresh buffer; the buffer at `p` is not written. -/
def np_around_alloc (h : NpHeap) (p : ℕ) (d : ℤ) : NpHeap × ℕ :=
  (⟨h.bufs ++ [np_around d (h.bufs.getD p emptyArr)]⟩, h.bufs.length)

/-- Modelled from the spec: the projected/conjugate Sinkhorn projection
subroutine of the Wasserstein attack (`art/attacks/evasion/wasserstein.py`,
not included under `src/`; only its test is) repeats an update step until
a convergence test succeeds or the iteration cap is reached, "a
per-iteration relative change below a small numeric tolerance, or the
iteration cap, whichever comes first". The result pairs the final state
with the number of update steps actually performed. -/
def sinkhornIter {α : Type} (step : α → α) (converged : α → Bool) :
    ℕ → α → α × ℕ
  | 0, x => (x, 0)
  | n + 1, x =>
    if converged x then (x, 0)
    else
      let r := sinkhornIter step converged n (step x)
      (r.1, r.2 + 1)

/-- Modelled from the spec: the primal projection loop, capped by
`projected_sinkhorn_max_iter`. -/
def projected_sinkhorn {α : Type} (step : α → α) (converged : α → Bool)
    (projected_sinkhorn_max_iter : ℕ) (x : α) : α × ℕ :=
  sinkhornIter step converged projected_sinkhorn_max_iter x

/-- Modelled from the spec: the dual/conjugate projection loop, capped by
`conjugate_sinkhorn_max_iter`. -/
def conjugate_sinkhorn {α : Type} (step : α → α) (converged : α → Bool)
    (conjugate_sinkhorn_max_iter : ℕ) (x : α) : α × ℕ :=
  sinkhornIter step converged conjugate_sinkhorn_max_iter x

theorem rint_intCast (z : ℤ) : rint (z : ℚ) = z := by
  unfold rint
  rw [Int.fract_intCast]
  norm_num

theorem roundDec_idem (d : ℤ) (q : ℚ) : roundDec d (roundDec d q) = roundDec d q := by
  unfold roundDec
  have h10 : (10:ℚ)^d ≠ 0 := zpow_ne_zero d (by norm_num)
  rw [div_mul_cancel₀ _ h10, rint_intCast]

theorem np_around_idem (d : ℤ) (x : NDArray) :
    np_around d (np_around d x) = np_around d x := by
  unfold np_around
  simp [List.map_map, Function.comp, roundDec_idem]

theorem set_params_eq (s : RoundedState) (d : PyVal) :
    Rounded.set_params s d =
      if isPositiveInt (some d)
      then ({ s with decimals := some d }, Except.ok true)
      else ({ s with decimals := some d }, Except.error decimalsErrMsg) := rfl

theorem init_eq (d : PyVal) (af ap : Bool) :
    Rounded.init d af ap =
      if isPositiveInt (some d)
      then Except.ok (mkRounded af ap (some d))
      else Except.error decimalsErrMsg := by
  cases h : isPositiveInt (some d) <;>
    simp [Rounded.init, set_params_eq, h, postprocessor_set_params, mkRounded]

theorem sinkhornIter_count_le {α : Type} (step : α → α) (converged : α → Bool) :
    ∀ (n : ℕ) (x : α), (sinkhornIter step converged n x).2 ≤ n := by
  intro n
  induction n with
  | zero => intro x; simp [sinkhornIter]
  | succ k ih =>
    intro x
    unfold sinkhornIter
    cases hcv : converged x with
    | true => simp [hcv]
    | false =>
      simp only [hcv, Bool.false_eq_true, if_false]
      exact Nat.succ_le_succ (ih (step x))

/-- C1: evaluation of `Rounded.set_params` at the failing input. On an
object constructed with `decimals = 3`, the call `set_params(decimals=0)`
raises the `ValueError` but leaves `decimals = 0` stored on the object:
the update is not all-or-nothing, because the base class assignment runs
before the validation (contrary to the method docstring "apply checks
before saving them as attributes"). -/
theorem c1_failed_set_params_overwrites_state :
    Rounded.init (PyVal.pyInt 3) false true =
      Except.ok (mkRounded false true (some (PyVal.pyInt 3))) ∧
    Rounded.set_params (mkRounded false true (some (PyVal.pyInt 3))) (PyVal.pyInt 0) =
      (mkRounded false true (some (PyVal.pyInt 0)), Except.error decimalsErrMsg) ∧
    (Rounded.set_params (mkRounded false true (some (PyVal.pyInt 3)))
      (PyVal.pyInt 0)).1.decimals ≠ some (PyVal.pyInt 3) := by
  refine ⟨rfl, rfl, ?_⟩
  decide

/-- C2: `set_params` raises exactly when the supplied `decimals` is not a
positive integer — in particular `decimals=0` and `decimals=-1` both fail —
while `set_params(decimals=3)` returns `True`, stores `3`, and a
subsequent `__call__` rounds with 3 decimal places. -/
theorem c2_set_params_validation (s : RoundedState) (d : PyVal) (x : NDArray) :
    exceptOk (Rounded.set_params s d).2 = isPositiveInt (some d) ∧
    (Rounded.set_params s (PyVal.pyInt 0)).2 = Except.error decimalsErrMsg ∧
    (Rounded.set_params s (PyVal.pyInt (-1))).2 = Except.error decimalsErrMsg ∧
    (Rounded.set_params s (PyVal.pyInt 3)).2 = Except.ok true ∧
    (Rounded.set_params s (PyVal.pyInt 3)).1.decimals = some (PyVal.pyInt 3) ∧
    Rounded.call (Rounded.set_params s (PyVal.pyInt 3)).1 x = some (np_around 3 x) := by
  refine ⟨?_, rfl, rfl, rfl, rfl, rfl⟩
  rw [set_params_eq]
  cases h : isPositiveInt (some d) <;> simp [h, exceptOk]

/-- C3: construction with a `decimals` that is not a positive integer
fails with the `ValueError`, and every successfully constructed or
successfully updated object satisfies the invariant that `decimals`
holds an integer strictly greater than zero. -/
theorem c3_construction_invariant (d : PyVal) (af ap : Bool) (s : RoundedState) :
    (Rounded.init d af ap =
      if isPositiveInt (some d)
      then Except.ok (mkRounded af ap (some d))
      else Except.error decimalsErrMsg) ∧
    exceptOk (Rounded.init d af ap) = isPositiveInt (some d) ∧
    validDecimals (Rounded.set_params s d).1 = exceptOk (Rounded.set_params s d).2 ∧
    validDecimals (mkRounded af ap (some d)) = isPositiveInt (some d) ∧
    (isPositiveInt (some d) = true ↔ ∃ z : ℤ, 0 < z ∧ d = PyVal.pyInt z) := by
  refine ⟨init_eq d af ap, ?_, ?_, rfl, ?_⟩
  · rw [init_eq]
    cases h : isPositiveInt (some d) <;> simp [h, exceptOk]
  · rw [set_params_eq]
    cases h : isPositiveInt (some d) <;> simp [h, exceptOk, validDecimals]
  · cases d <;> simp [isPositiveInt]

/-- C7: the Sinkhorn projection loops always terminate within their
configured iteration caps: the number of update steps performed by
`projected_sinkhorn` (respectively `conjugate_sinkhorn`) never exceeds
`projected_sinkhorn_max_iter` (respectively `conjugate_sinkhorn_max_iter`),
for every step function, convergence test, regularization-dependent
behaviour of those functions, and input. -/
theorem c7_sinkhorn_terminates_within_cap {α : Type} (step : α → α)
    (converged : α → Bool) (pmax cmax : ℕ) (x y : α) :
    (projected_sinkhorn step converged pmax x).2 ≤ pmax ∧
    (conjugate_sinkhorn step converged cmax y).2 ≤ cmax :=
  ⟨sinkhornIter_count_le step converged pmax x,
   sinkhornIter_count_le step converged cmax y⟩

/-- C9: `fit` is a no-op: the object state is returned unchanged, so
`decimals`, `apply_fit`, `apply_predict` and the behaviour of `__call__`
are all unaffected and nothing is learned. -/
theorem c9_fit_noop (s : RoundedState) (x y : NDArray) :
    Rounded.fit s x = s ∧
    (Rounded.fit s x).decimals = s.decimals ∧
    (Rounded.fit s x).apply_fit = s.apply_fit ∧
    (Rounded.fit s x).apply_predict = s.apply_predict ∧
    Rounded.call (Rounded.fit s x) y = Rounded.call s y :=
  ⟨rfl, rfl, rfl, rfl, rfl⟩

theorem set_params_fst (s : RoundedState) (d : PyVal) :
    (Rounded.set_params s d).1 = { s with decimals := some d } := by
  rw [set_params_eq]
  cases h : isPositiveInt (some d) <;> simp [h]

/-- C4: for a valid configuration (`decimals` holds an integer `z > 0`),
`__call__` is idempotent: applying the postprocessor twice equals
applying it once, i.e. `round(round(x)) = round(x)` elementwise. -/
theorem c4_call_idempotent (s : RoundedState) (x : NDArray) (z : ℤ)
    (hz : 0 < z) (hd : s.decimals = some (PyVal.pyInt z)) :
    (Rounded.call s x).bind (Rounded.call s) = Rounded.call s x ∧
    Rounded.call s x = some (np_around z x) ∧
    np_around z (np_around z x) = np_around z x := by
  have hc : ∀ y : NDArray, Rounded.call s y = some (np_around z y) := by
    intro y
    unfold Rounded.call
    rw [hd]
  refine ⟨?_, hc x, np_around_idem z x⟩
  rw [hc x, Option.some_bind, hc (np_around z x), np_around_idem]

/-- Witness for C4 at a concrete valid state and a concrete array. -/
theorem c4_call_idempotent_witness :
    (0:ℤ) < 2 ∧
    ((Rounded.call (mkRounded false true (some (PyVal.pyInt 2))) { shape := [2], dtype := DType.float64, data := [1/4, 5] }).bind (Rounded.call (mkRounded false true (some (PyVal.pyInt 2)))) = Rounded.call (mkRounded false true (some (PyVal.pyInt 2))) { shape := [2], dtype := DType.float64, data := [1/4, 5] } ∧
    Rounded.call (mkRounded false true (some (PyVal.pyInt 2))) { shape := [2], dtype := DType.float64, data := [1/4, 5] } = some (np_around 2 { shape := [2], dtype := DType.float64, data := [1/4, 5] }) ∧
    np_around 2 (np_around 2 { shape := [2], dtype := DType.float64, data := [1/4, 5] }) = np_around 2 { shape := [2], dtype := DType.float64, data := [1/4, 5] }) :=
  ⟨by decide,
   c4_call_idempotent (mkRounded false true (some (PyVal.pyInt 2))) { shape := [2], dtype := DType.float64, data := [1/4, 5] } 2 (by decide) rfl⟩

/-- C5: a successful `__call__` preserves the shape and the dtype of the
input array; in particular a floating-point input yields a
floating-point output. -/
theorem c5_call_preserves_shape_dtype (s : RoundedState) (x y : NDArray)
    (h : Rounded.call s x = some y) :
    y.shape = x.shape ∧ y.dtype = x.dtype ∧ y.dtype.isFloat = x.dtype.isFloat := by
  cases hs : s.decimals with
  | none => simp [Rounded.call, hs] at h
  | some v =>
    cases v with
    | pyInt z =>
      simp [Rounded.call, hs] at h
      subst h
      exact ⟨rfl, rfl, rfl⟩
    | pyFloat q => simp [Rounded.call, hs] at h
    | pyStr t => simp [Rounded.call, hs] at h

/-- Witness for C5 at a concrete state and a concrete float32 array. -/
theorem c5_call_preserves_shape_dtype_witness :
    Rounded.call (mkRounded false true (some (PyVal.pyInt 1))) { shape := [1], dtype := DType.float32, data := [1/4] } = some (np_around 1 { shape := [1], dtype := DType.float32, data := [1/4] }) ∧
    ((np_around 1 { shape := [1], dtype := DType.float32, data := [1/4] }).shape = [1] ∧
     (np_around 1 { shape := [1], dtype := DType.float32, data := [1/4] }).dtype = DType.float32 ∧
     (np_around 1 { shape := [1], dtype := DType.float32, data := [1/4] }).dtype.isFloat = DType.float32.isFloat) :=
  ⟨rfl,
   c5_call_preserves_shape_dtype (mkRounded false true (some (PyVal.pyInt 1))) { shape := [1], dtype := DType.float32, data := [1/4] } (np_around 1 { shape := [1], dtype := DType.float32, data := [1/4] }) rfl⟩

/-- C6: at the buffer level, `__call__` (`np.around`) allocates a fresh
output buffer — its address differs from the input's and the input
buffer is left untouched in the heap — and every element of the output
is the corresponding input element rounded to the configured number of
decimal places. -/
theorem c6_call_fresh_and_elementwise (h : NpHeap) (p : ℕ) (d : ℤ) (i : ℕ)
    (hp : p < h.bufs.length) :
    (np_around_alloc h p d).2 ≠ p ∧
    (np_around_alloc h p d).1.bufs[p]? = h.bufs[p]? ∧
    (np_around_alloc h p d).1.bufs.getD (np_around_alloc h p d).2 emptyArr =
      np_around d (h.bufs.getD p emptyArr) ∧
    (np_around d (h.bufs.getD p emptyArr)).data[i]? =
      ((h.bufs.getD p emptyArr).data[i]?).map (roundDec d) := by
  refine ⟨(Nat.ne_of_lt hp).symm, ?_, ?_, ?_⟩
  · show (h.bufs ++ [np_around d (h.bufs.getD p emptyArr)])[p]? = h.bufs[p]?
    rw [List.getElem?_append, if_pos hp]
  · show (h.bufs ++ [np_around d (h.bufs.getD p emptyArr)]).getD h.bufs.length emptyArr = _
    simp [List.getD_eq_getElem?_getD, List.getElem?_concat_length]
  · simp [np_around]

/-- Witness for C6 on a one-buffer heap. -/
theorem c6_call_fresh_and_elementwise_witness :
    (0 < (NpHeap.mk [{ shape := [1], dtype := DType.float64, data := [3/2] }]).bufs.length) ∧
    ((np_around_alloc ⟨[{ shape := [1], dtype := DType.float64, data := [3/2] }]⟩ 0 1).2 ≠ 0 ∧
    (np_around_alloc ⟨[{ shape := [1], dtype := DType.float64, data := [3/2] }]⟩ 0 1).1.bufs[0]? = (NpHeap.mk [{ shape := [1], dtype := DType.float64, data := [3/2] }]).bufs[0]? ∧
    (np_around_alloc ⟨[{ shape := [1], dtype := DType.float64, data := [3/2] }]⟩ 0 1).1.bufs.getD (np_around_alloc ⟨[{ shape := [1], dtype := DType.float64, data := [3/2] }]⟩ 0 1).2 emptyArr = np_around 1 ((NpHeap.mk [{ shape := [1], dtype := DType.float64, data := [3/2] }]).bufs.getD 0 emptyArr) ∧
    (np_around 1 ((NpHeap.mk [{ shape := [1], dtype := DType.float64, data := [3/2] }]).bufs.getD 0 emptyArr)).data[0]? = (((NpHeap.mk [{ shape := [1], dtype := DType.float64, data := [3/2] }]).bufs.getD 0 emptyArr).data[0]?).map (roundDec 1)) :=
  ⟨by decide,
   c6_call_fresh_and_elementwise ⟨[{ shape := [1], dtype := DType.float64, data := [3/2] }]⟩ 0 1 0 (by decide)⟩

/-- C8: the `apply_fit` and `apply_predict` flags are read-only after
construction: a successfully constructed object carries exactly the
booleans supplied to `__init__`, and neither `fit` nor `set_params`
(successful or failing) changes them; `__call__` reads the state without
returning a modified one. -/
theorem c8_flags_read_only (d d2 : PyVal) (af ap : Bool) (s : RoundedState)
    (x : NDArray) (h : Rounded.init d af ap = Except.ok s) :
    s.apply_fit = af ∧ s.apply_predict = ap ∧
    (Rounded.fit s x).apply_fit = af ∧ (Rounded.fit s x).apply_predict = ap ∧
    (Rounded.set_params s d2).1.apply_fit = af ∧
    (Rounded.set_params s d2).1.apply_predict = ap := by
  rw [init_eq] at h
  cases hv : isPositiveInt (some d) <;> rw [hv] at h <;> simp at h
  subst h
  rw [set_params_fst]
  exact ⟨rfl, rfl, rfl, rfl, rfl, rfl⟩

/-- Witness for C8 at a concrete successful construction. -/
theorem c8_flags_read_only_witness :
    Rounded.init (PyVal.pyInt 3) true false = Except.ok (mkRounded true false (some (PyVal.pyInt 3))) ∧
    ((mkRounded true false (some (PyVal.pyInt 3))).apply_fit = true ∧
     (mkRounded true false (some (PyVal.pyInt 3))).apply_predict = false ∧
     (Rounded.fit (mkRounded true false (some (PyVal.pyInt 3))) { shape := [1], dtype := DType.float64, data := [0] }).apply_fit = true ∧
     (Rounded.fit (mkRounded true false (some (PyVal.pyInt 3))) { shape := [1], dtype := DType.float64, data := [0] }).apply_predict = false ∧
     (Rounded.set_params (mkRounded true false (some (PyVal.pyInt 3))) (PyVal.pyInt 0)).1.apply_fit = true ∧
     (Rounded.set_params (mkRounded true false (some (PyVal.pyInt 3))) (PyVal.pyInt 0)).1.apply_predict = false) :=
  ⟨rfl,
   c8_flags_read_only (PyVal.pyInt 3) (PyVal.pyInt 0) true false (mkRounded true false (some (PyVal.pyInt 3))) { shape := [1], dtype := DType.float64, data := [0] } rfl⟩

/-- C10: `__call__` is deterministic and its output depends only on the
stored `decimals` and the input array: two states agreeing on `decimals`
produce equal outputs on equal inputs; and `set_params` either returns
`True` or raises the `ValueError` — it never returns another value. -/
theorem c10_call_deterministic (s1 s2 s : RoundedState) (d : PyVal) (x : NDArray)
    (h : s1.decimals = s2.decimals) :
    Rounded.call s1 x = Rounded.call s2 x ∧
    ((Rounded.set_params s d).2 = Except.ok true ∨
      (Rounded.set_params s d).2 = Except.error decimalsErrMsg) := by
  constructor
  · unfold Rounded.call
    rw [h]
  · rw [set_params_eq]
    cases hv : isPositiveInt (some d) <;> simp [hv]

/-- Witness for C10: two states differing only in the flags. -/
theorem c10_call_deterministic_witness :
    (mkRounded false true (some (PyVal.pyInt 3))).decimals = (mkRounded true false (some (PyVal.pyInt 3))).decimals ∧
    (Rounded.call (mkRounded false true (some (PyVal.pyInt 3))) { shape := [1], dtype := DType.float64, data := [7/3] } = Rounded.call (mkRounded true false (some (PyVal.pyInt 3))) { shape := [1], dtype := DType.float64, data := [7/3] } ∧
    ((Rounded.set_params (mkRounded false true (some (PyVal.pyInt 3))) (PyVal.pyInt 2)).2 = Except.ok true ∨
      (Rounded.set_params (mkRounded false true (some (PyVal.pyInt 3))) (PyVal.pyInt 2)).2 = Except.error decimalsErrMsg)) :=
  ⟨rfl,
   c10_call_deterministic (mkRounded false true (some (PyVal.pyInt 3))) (mkRounded true false (some (PyVal.pyInt 3))) (mkRounded false true (some (PyVal.pyInt 3))) (PyVal.pyInt 2) { shape := [1], dtype := DType.float64, data := [7/3] } rfl⟩
